import Mathlib

/-!
Verification of the two-phase nmap scan orchestration pipeline
(`src/nmap-scanner/src/advanced_scan.py`, `src/nmap-scanner/scan.py`,
`src/nmap-scanner/src/config_manager.py`) against its specification.

The nmap XML output is modelled as a tree of records mirroring exactly the
elements and attributes the Python parsers read (`host`, `address`,
`hostnames/hostname`, `ports/port`, `state`, `service`, `script`,
`os/osmatch`).  Attributes read with `el.get(k, default)` are modelled as
`Option String` with the default applied at the read site, as in the source.
An absent `addr` attribute is modelled as the empty string (both are falsy
in the Python `if not ip` check of advanced_scan.py).

Python `dict` values are modelled as association lists with
insertion-order-preserving insert-or-replace (`dictInsert`), matching
CPython dict assignment semantics.  Exceptions are modelled with
`Option`/`Except`; wall-clock values (uuid, timestamps, float durations)
are threaded as opaque parameters.
-/

namespace MonitoringStack

/-- Insert-or-replace for an association list, preserving the position of an
existing key, as CPython `d[k] = v` does. -/
def dictInsert {α β : Type} [DecidableEq α] (k : α) (v : β) :
    List (α × β) → List (α × β)
  | [] => [(k, v)]
  | (k', v') :: rest =>
    if k' = k then (k, v) :: rest else (k', v') :: dictInsert k v rest

/-- Python `d.get(k)` / `d[k]` lookup on the association-list model. -/
def dictGet {α β : Type} [DecidableEq α] (k : α) :
    List (α × β) → Option β
  | [] => none
  | (k', v) :: rest => if k' = k then some v else dictGet k rest

/-! ## Model of the nmap XML documents (the shape both parsers read) -/

/-- `<address addrtype=... addr=...>`. -/
structure XAddress where
  addrtype : String
  addr : String
deriving DecidableEq, Repr

/-- `<state state=...>` child of a `<port>`. -/
structure XState where
  state : String
deriving DecidableEq, Repr

/-- `<service>` attributes, each read with `.get(k, "")` in the source. -/
structure XService where
  name : Option String
  product : Option String
  version : Option String
  extrainfo : Option String
  tunnel : Option String
  method : Option String
deriving DecidableEq, Repr

/-- `<script id=... output=...>` child of a `<port>`. -/
structure XScript where
  id : Option String
  output : Option String
deriving DecidableEq, Repr

/-- `<port portid=... protocol=...>` element.  `portid` is modelled as the
numeral it denotes (phase 1 applies `int(...)` to it; phase 2 re-renders it
in decimal). -/
structure XPort where
  portid : Nat
  protocol : Option String
  state : Option XState
  service : Option XService
  scripts : List XScript
deriving DecidableEq, Repr

/-- `<hostname name=...>` inside `<hostnames>`. -/
structure XHostname where
  name : Option String
deriving DecidableEq, Repr

/-- `<osmatch name=... accuracy=...>` inside `<os>`. -/
structure XOsmatch where
  name : Option String
  accuracy : Option String
deriving DecidableEq, Repr

/-- `<host>` element: addresses, optional `<hostnames>`, optional
`<ports>`, optional `<os>`. -/
structure XHost where
  addresses : List XAddress
  hostnames : Option (List XHostname)
  ports : Option (List XPort)
  os : Option (List XOsmatch)
deriving DecidableEq, Repr

/-- Parsed `<nmaprun>` document: the list of `<host>` elements. -/
structure XDoc where
  hosts : List XHost
deriving DecidableEq, Repr

/-- The shared host/address extraction of both parsers:
first `<address>` whose `addrtype` is `ipv4` or `ipv6`. -/
def findHostIp (h : XHost) : Option String :=
  (h.addresses.find? fun a => a.addrtype == "ipv4" || a.addrtype == "ipv6").map
    (·.addr)

/-- Open ports of a host in document order
(advanced_scan.py lines 191-199): every `<port>` whose `<state>` child has
`state="open"`, by `portid`. -/
def hostOpenPorts (h : XHost) : List Nat :=
  match h.ports with
  | none => []
  | some ps =>
    (ps.filter fun p =>
      match p.state with
      | some st => st.state == "open"
      | none => false).map (·.portid)

/-- One loop iteration of `_parse_phase1_xml` (advanced_scan.py lines
180-203): skip hosts without a resolvable (truthy) address and hosts with
no open ports, otherwise record `ip -> sorted(open_ports)`.  `sorted` is
the ascending Python sort; on `Nat` port numbers any correct stable sort
agrees, modelled with `List.insertionSort`. -/
def phase1Step (results : List (String × List Nat)) (h : XHost) :
    List (String × List Nat) :=
  match findHostIp h with
  | none => results
  | some ip =>
    if ip = "" then results
    else if (hostOpenPorts h).isEmpty then results
    else dictInsert ip ((hostOpenPorts h).insertionSort (· ≤ ·)) results

/-- `AdvancedScanner._parse_phase1_xml` (advanced_scan.py lines 172-210). -/
def parse_phase1_xml (doc : XDoc) : List (String × List Nat) :=
  doc.hosts.foldl phase1Step []

/-! ## Phase-2 detail parsing (`AdvancedScanner._parse_phase2_xml`) -/

/-- `<service>` attribute dictionary built at advanced_scan.py lines 314-322
(`service_el.get(k, "")` for each attribute). -/
structure ServiceInfo where
  name : String
  product : String
  version : String
  extrainfo : String
  tunnel : String
  method : String
deriving DecidableEq, Repr

/-- One entry of the `ports_info` mapping (advanced_scan.py lines 332-336):
`state`, optional service dictionary (`{}` when the element is absent,
modelled `none`), NSE script outputs keyed by script id. -/
structure PortDetail where
  state : String
  service : Option ServiceInfo
  scripts : List (String × String)
deriving DecidableEq, Repr

/-- The `host_data` dictionary of `_parse_phase2_xml`
(advanced_scan.py lines 348-354); `scan_time` is wall clock and omitted. -/
structure HostDetail where
  ip : String
  hostname : String
  ports : List (String × PortDetail)
  os : List (String × String)
deriving DecidableEq, Repr

/-- Hostname extraction shared by both parsers: first `<hostname>` child of
`<hostnames>`, attribute `name` with default `""`. -/
def hostHostname (h : XHost) : String :=
  match h.hostnames with
  | none => ""
  | some hns =>
    match hns.head? with
    | none => ""
    | some hn => hn.name.getD ""

/-- The `ports_info` dictionary (advanced_scan.py lines 301-336), keyed
`"{portid}/{protocol}"` with protocol defaulting to `"tcp"`. -/
def buildPortsInfo (h : XHost) : List (String × PortDetail) :=
  match h.ports with
  | none => []
  | some ps =>
    ps.foldl
      (fun acc p =>
        let svc := p.service.map fun s =>
          { name := s.name.getD "", product := s.product.getD "",
            version := s.version.getD "", extrainfo := s.extrainfo.getD "",
            tunnel := s.tunnel.getD "", method := s.method.getD "" }
        let scripts := p.scripts.foldl
          (fun sc s =>
            let sid := s.id.getD ""
            if sid = "" then sc else dictInsert sid (s.output.getD "") sc)
          []
        let state :=
          match p.state with
          | some st => st.state
          | none => "unknown"
        dictInsert (toString p.portid ++ "/" ++ p.protocol.getD "tcp")
          { state := state, service := svc, scripts := scripts } acc)
      []

/-- The `os_info` dictionary (advanced_scan.py lines 338-346): osmatch name
(skipped when falsy) mapped to accuracy (default `"0"`). -/
def buildOsInfo (h : XHost) : List (String × String) :=
  match h.os with
  | none => []
  | some ms =>
    ms.foldl
      (fun acc m =>
        let n := m.name.getD ""
        if n = "" then acc else dictInsert n (m.accuracy.getD "0") acc)
      []

/-- What one loop iteration of `_parse_phase2_xml` contributes for a host:
`none` when the host has no resolvable (truthy) address (the `continue`),
otherwise the `host_data` dictionary it assigns. -/
def hostDetailOf (h : XHost) : Option HostDetail :=
  match findHostIp h with
  | none => none
  | some ip =>
    if ip = "" then none
    else
      some { ip := ip, hostname := hostHostname h, ports := buildPortsInfo h,
             os := buildOsInfo h }

/-- `AdvancedScanner._parse_phase2_xml` (advanced_scan.py lines 274-360):
`host_data` starts as `{}` (modelled `none`) and is reassigned for every
host with a resolvable address; the final value is returned. -/
def parse_phase2_xml (doc : XDoc) : Option HostDetail :=
  doc.hosts.foldl
    (fun acc h =>
      match hostDetailOf h with
      | some d => some d
      | none => acc)
    none

/-! ## Phase-2 fan-out (`AdvancedScanner.run_phase2`) -/

/-- Outcome of one Scan Executor invocation (`subprocess.run` with
`timeout=...`, `check=True`): parsed XML on success, or the exceptions the
caller catches (`TimeoutExpired`, `CalledProcessError`, anything else). -/
inductive ExecOutcome where
  | ok (doc : XDoc)
  | timeout
  | nonZeroExit (code : Int)
  | otherError
deriving Repr

/-- One loop iteration of `run_phase2` (advanced_scan.py lines 227-268):
on executor success parse the detail document of the host and record it when
non-empty; on `TimeoutExpired`, `CalledProcessError` or any other
exception, log and `continue`. -/
def phase2Step (exec : String → ExecOutcome)
    (acc : List (String × HostDetail)) (ipports : String × List Nat) :
    List (String × HostDetail) :=
  match exec ipports.1 with
  | .ok doc =>
    match parse_phase2_xml doc with
    | some hd => dictInsert ipports.1 hd acc
    | none => acc
  | _ => acc

/-- `AdvancedScanner.run_phase2` (advanced_scan.py lines 212-272): per
discovered host (the port list of the phase-2 command is the phase-1
entry of the host, so the executor outcome is indexed by the ip), on success parse the
detail document and record it when non-empty; a timeout, non-zero exit or
other error is logged and that host skipped (`continue`). -/
def run_phase2 (exec : String → ExecOutcome)
    (phase1 : List (String × List Nat)) : List (String × HostDetail) :=
  phase1.foldl (phase2Step exec) []

/-! ## Summary report (`AdvancedScanner.generate_summary_report`) -/

/-- The unique non-empty service names of the phase-2 results
(advanced_scan.py lines 372-378); the Python `set` is modelled as a
duplicate-free list in first-seen order (its length is the size of the
set, its membership the membership of the set). -/
def uniqueServicesList (p2 : List (String × HostDetail)) : List String :=
  p2.foldl
    (fun acc ihd =>
      ihd.2.ports.foldl
        (fun acc2 kpd =>
          let n :=
            match kpd.2.service with
            | some si => si.name
            | none => ""
          if n = "" then acc2 else if n ∈ acc2 then acc2 else acc2 ++ [n])
        acc)
    []

/-- `generate_summary_report` output (advanced_scan.py lines 362-408);
timing is abstracted to the opaque rendered duration `duration_repr`. -/
structure ScanSummary where
  scan_id : String
  network_name : Option String
  network_cidr : String
  duration_repr : String
  hosts_with_open_ports : Nat
  total_open_ports : Nat
  hosts_analyzed : Nat
  unique_services : Nat
  services_list : List String
  phase1_summary : List (String × Nat)
  phase2_detailed : List (String × HostDetail)
deriving DecidableEq, Repr

/-- `AdvancedScanner.generate_summary_report` (advanced_scan.py lines
362-408), as a function of the two phase results and the run identity. -/
def generate_summary_report (scan_id : String) (network_name : Option String)
    (network_cidr duration_repr : String) (p1 : List (String × List Nat))
    (p2 : List (String × HostDetail)) : ScanSummary :=
  let us := uniqueServicesList p2
  { scan_id := scan_id, network_name := network_name,
    network_cidr := network_cidr, duration_repr := duration_repr,
    hosts_with_open_ports := p1.length,
    total_open_ports := (p1.map fun x => x.2.length).sum,
    hosts_analyzed := p2.length,
    unique_services := us.length,
    services_list := us.insertionSort (· ≤ ·),
    phase1_summary := p1.map fun x => (x.1, x.2.length),
    phase2_detailed := p2 }

/-! ## History Ledger (`AdvancedScanner.update_scan_history`) -/

/-- The condensed `history_entry` dictionary (advanced_scan.py lines
440-450); the wall-clock start/end fields are abstracted into
`duration_repr`. -/
structure HistoryEntry where
  scan_id : String
  network_name : Option String
  network_cidr : String
  duration_repr : String
  hosts_discovered : Nat
  ports_found : Nat
  services_identified : Nat
deriving DecidableEq, Repr

/-- Projection of a `ScanSummary` into its history entry
(advanced_scan.py lines 440-450). -/
def mkHistoryEntry (s : ScanSummary) : HistoryEntry :=
  { scan_id := s.scan_id, network_name := s.network_name,
    network_cidr := s.network_cidr, duration_repr := s.duration_repr,
    hosts_discovered := s.hosts_with_open_ports,
    ports_found := s.total_open_ports,
    services_identified := s.unique_services }

/-- State of the history file on disk: absent, present but unparseable
JSON, or a parsed list of entries. -/
inductive HistFile where
  | missing
  | corrupt
  | valid (entries : List HistoryEntry)
deriving DecidableEq, Repr

/-- The Python `history[-m:]` slice: for `m = 0` the slice `[-0:]` is the
whole list; for `m > 0` it is the last `m` elements. -/
def pySliceLast {α : Type} (m : Nat) (h : List α) : List α :=
  if m = 0 then h else h.drop (h.length - m)

/-- The truncation step of `update_scan_history` (advanced_scan.py lines
455-457): keep only the most recent `max_history` entries when the list
exceeds it. -/
def truncHist (maxHistory : Nat) (h : List HistoryEntry) : List HistoryEntry :=
  if h.length > maxHistory then pySliceLast maxHistory h else h

/-- `AdvancedScanner.update_scan_history` (advanced_scan.py lines 428-467):
the whole body is inside one `try`.  A missing file starts from `[]`; an
unparseable file makes `json.load` raise, which the outer `except` catches
(logged), leaving the file untouched and appending nothing; `writeOk`
models whether the final write raises (also caught, leaving the previous
file state). -/
def update_scan_history (writeOk : Bool) (maxHistory : Nat) (file : HistFile)
    (e : HistoryEntry) : HistFile :=
  match file with
  | .corrupt => .corrupt
  | .missing => if writeOk then .valid (truncHist maxHistory [e]) else .missing
  | .valid h =>
    if writeOk then .valid (truncHist maxHistory (h ++ [e])) else .valid h

/-- The entries readable from a history file (`[]` for absent or
unparseable content). -/
def histEntries : HistFile → List HistoryEntry
  | .missing => []
  | .corrupt => []
  | .valid h => h

/-! ## Line-protocol encoder of the advanced scanner
(`AdvancedScanner._convert_to_influx_points`) -/

/-- The Python `x or default` idiom on an optional string (`None` and `""`
are both falsy), as used for the network-name tag defaulting. -/
def pyOrElse (x : Option String) (d : String) : String :=
  match x with
  | some s => if s = "" then d else s
  | none => d

/-- The Python `str.split(sep)` operation for a single-character separator, on the
character list of the string. -/
def splitOnChar (sep : Char) : List Char → List (List Char)
  | [] => [[]]
  | c :: cs =>
    match splitOnChar sep cs with
    | [] => [[c]]
    | p :: ps => if c = sep then [] :: p :: ps else (c :: p) :: ps

/-- The run-summary point of `_convert_to_influx_points`
(advanced_scan.py lines 509-518).  Note: no escaping is applied to any tag
value. -/
def influxSummaryPoint (measurement scan_id : String)
    (network_name : Option String) (network_cidr : String) (now_ns : Nat)
    (s : ScanSummary) : String :=
  let tags := "scan_id=" ++ scan_id ++ ",network_name=" ++
    pyOrElse network_name "manual" ++ ",network_cidr=" ++ network_cidr
  let fields :=
    ["hosts_discovered=" ++ toString s.hosts_with_open_ports ++ "i",
     "ports_found=" ++ toString s.total_open_ports ++ "i",
     "services_identified=" ++ toString s.unique_services ++ "i",
     "duration_seconds=" ++ s.duration_repr]
  measurement ++ "_summary," ++ tags ++ " " ++ String.intercalate "," fields
    ++ " " ++ toString now_ns

/-- One per-port point of `_convert_to_influx_points`
(advanced_scan.py lines 521-536): the key is split at `/` (a key without
exactly two parts makes the Python tuple unpacking raise, modelled `none`);
tag values are emitted verbatim, with no escaping. -/
def influxPortPoint (measurement scan_id now_str ip : String) (key : String)
    (pd : PortDetail) : Option String :=
  match splitOnChar '/' key.data with
  | [pn, proto] =>
    let service_name :=
      match pd.service with
      | some si => si.name
      | none => "unknown"
    let service_product :=
      match pd.service with
      | some si => si.product
      | none => ""
    let service_version :=
      match pd.service with
      | some si => si.version
      | none => ""
    let tags := "scan_id=" ++ scan_id ++ ",ip=" ++ ip ++ ",port=" ++
      String.mk pn ++ ",protocol=" ++ String.mk proto ++ ",service=" ++
      service_name
    let fields := ["state=\x22" ++ pd.state ++ "\x22"] ++
      (if service_product ≠ "" then
        ["product=\x22" ++ service_product ++ "\x22"] else []) ++
      (if service_version ≠ "" then
        ["version=\x22" ++ service_version ++ "\x22"] else [])
    some (measurement ++ "_ports," ++ tags ++ " " ++
      String.intercalate "," fields ++ " " ++ now_str)
  | _ => none

/-- `AdvancedScanner._convert_to_influx_points` (advanced_scan.py lines
503-538): the summary point followed by one point per host/port entry of
`phase2_detailed`; `none` models the exception a malformed port key
raises. -/
def convert_to_influx_points (measurement scan_id : String)
    (network_name : Option String) (network_cidr : String) (now_ns : Nat)
    (s : ScanSummary) : Option (List String) :=
  s.phase2_detailed.foldl
    (fun acc ihd =>
      ihd.2.ports.foldl
        (fun acc2 kpd =>
          match acc2 with
          | none => none
          | some pts =>
            match influxPortPoint measurement scan_id (toString now_ns)
                ihd.1 kpd.1 kpd.2 with
            | some p => some (pts ++ [p])
            | none => none)
        acc)
    (some [influxSummaryPoint measurement scan_id network_name network_cidr
      now_ns s])

/-! ## Line-protocol encoder of the simple pipeline (`scan.py`) -/

/-- The Python `str.replace(needle, repl)` operation for a single-character
needle:
every occurrence is replaced, left to right, and the replacement text is
not rescanned. -/
def replaceChar (needle : Char) (repl : List Char) : List Char → List Char
  | [] => []
  | c :: cs => (if c = needle then repl else [c]) ++ replaceChar needle repl cs

/-- `esc_tag` (scan.py lines 123-124):
`s.replace("\x5c", "\x5c\x5c").replace(" ", "\x5c ").replace(",", "\x5c,").replace("=", "\x5c=")`
— backslash escaped first, then space, comma, equals. -/
def esc_tag (s : List Char) : List Char :=
  replaceChar '=' ['\x5c', '=']
    (replaceChar ',' ['\x5c', ',']
      (replaceChar ' ' ['\x5c', ' ']
        (replaceChar '\x5c' ['\x5c', '\x5c'] s)))

/-- `esc_field_str` (scan.py lines 125-126): escape backslash, then double
quote. -/
def esc_field_str (s : List Char) : List Char :=
  replaceChar '"' ['\x5c', '"'] (replaceChar '\x5c' ['\x5c', '\x5c'] s)

/-- Single-pass character escaping as the spec words it: each of backslash,
space, comma, equals is preceded by one backslash; other characters pass
through. -/
def escTagChar (c : Char) : List Char :=
  if c = '\x5c' ∨ c = ' ' ∨ c = ',' ∨ c = '=' then ['\x5c', c] else [c]

/-- Tag section of a point built by `xml_to_points` (scan.py line 128):
`esc_tag` is applied to each of the four tag values. -/
def scanPointTags (ip portid protocol service : List Char) : List Char :=
  "ip=".data ++ esc_tag ip ++ ",port=".data ++ esc_tag portid ++
  ",protocol=".data ++ esc_tag protocol ++ ",service=".data ++
  esc_tag service

/-- `xml_to_points` (scan.py lines 72-134): one point per `<port>` element
of every host that has a resolvable address (scan.py checks `ip is None`
only, so an empty address string is kept here, unlike advanced_scan.py)
and a `<ports>` element.  `run_id` and the timestamp are opaque
parameters. -/
def xml_to_points (measurement run_id : List Char) (now_ns : Nat)
    (doc : XDoc) : List (List Char) :=
  doc.hosts.foldl
    (fun pts h =>
      match findHostIp h with
      | none => pts
      | some ip =>
        let hostname := hostHostname h
        match h.ports with
        | none => pts
        | some ps =>
          ps.foldl
            (fun pts2 p =>
              let portid := toString p.portid
              let protocol := p.protocol.getD ""
              let state :=
                match p.state with
                | some st => st.state
                | none => ""
              let service :=
                match p.service with
                | some s => s.name.getD ""
                | none => ""
              let product :=
                match p.service with
                | some s => s.product.getD ""
                | none => ""
              let version :=
                match p.service with
                | some s => s.version.getD ""
                | none => ""
              let tags :=
                scanPointTags ip.data portid.data protocol.data service.data
              let fields := "state=\x22".data ++ esc_field_str state.data ++
                "\x22,product=\x22".data ++ esc_field_str product.data ++
                "\x22,version=\x22".data ++ esc_field_str version.data ++
                "\x22,hostname=\x22".data ++ esc_field_str hostname.data ++
                "\x22,run_id=\x22".data ++ run_id ++ "\x22".data
              pts2 ++ [measurement ++ ",".data ++ tags ++ " ".data ++
                fields ++ " ".data ++ (toString now_ns).data])
            pts)
    []

/-! ## Network Registry (`config_manager.py`) and the `ipaddress` stdlib
model it relies on -/

/-- Decimal digits to the natural number they denote. -/
def digitsToNat (cs : List Char) : Nat :=
  cs.foldl (fun n c => n * 10 + (c.toNat - '0'.toNat)) 0

/-- One dotted-quad octet, as CPython `ipaddress._parse_octet` accepts it:
non-empty, ASCII digits only, at most 3 characters, no leading zero, value
at most 255. -/
def parseOctet (cs : List Char) : Option Nat :=
  if cs.isEmpty then none
  else if ¬ cs.all (·.isDigit) then none
  else if cs.length > 3 then none
  else if cs.length > 1 ∧ cs.head? = some '0' then none
  else if digitsToNat cs ≤ 255 then some (digitsToNat cs) else none

/-- Dotted-quad IPv4 address to its 32-bit value, as CPython
`IPv4Address._ip_int_from_string`: exactly four valid octets. -/
def parseIPv4 (cs : List Char) : Option Nat :=
  match (splitOnChar '.' cs).mapM parseOctet with
  | some [a, b, c, d] => some (((a * 256 + b) * 256 + c) * 256 + d)
  | _ => none

/-- A decimal prefix length, as CPython
`ipaddress._prefix_from_prefix_string`: ASCII digits only (leading zeros
allowed here), value at most 32. -/
def parsePrefix (cs : List Char) : Option Nat :=
  if cs.isEmpty then none
  else if ¬ cs.all (·.isDigit) then none
  else if digitsToNat cs ≤ 32 then some (digitsToNat cs) else none

/-- Clear the host bits of an address for a prefix length (what
`strict=False` construction does via `supernet`/masking). -/
def maskAddr (ip pl : Nat) : Nat := ip - ip % 2 ^ (32 - pl)

/-- CPython `ipaddress.ip_network(s, strict=False)` for IPv4 inputs with an
optional decimal prefix (the subset the repository feeds it): at most one
`/`, a missing prefix meaning `/32`, host bits cleared.  Returns
`(network address, prefix length)`. -/
def ip_network (s : String) : Option (Nat × Nat) :=
  match splitOnChar '/' s.data with
  | [a] => (parseIPv4 a).map fun ip => (maskAddr ip 32, 32)
  | [a, p] =>
    match parseIPv4 a, parsePrefix p with
    | some ip, some pl => some (maskAddr ip pl, pl)
    | _, _ => none
  | _ => none

/-- Dotted-quad rendering of a 32-bit address (CPython
`IPv4Address.__str__`). -/
def ipToString (ip : Nat) : String :=
  toString (ip / 2 ^ 24 % 256) ++ "." ++ toString (ip / 2 ^ 16 % 256) ++
  "." ++ toString (ip / 2 ^ 8 % 256) ++ "." ++ toString (ip % 256)

/-- `str(network)` for an IPv4 network (CPython
`IPv4Network.__str__`): `"<network address>/<prefixlen>"`. -/
def networkStr (np : Nat × Nat) : String :=
  ipToString np.1 ++ "/" ++ toString np.2

/-- One entry of the `networks` configuration dictionary
(config_manager.py lines 101-108); the `added` wall-clock timestamp is
omitted. -/
structure NetworkEntry where
  cidr : String
  description : String
  enabled : Bool
  last_scan : Option String
  scan_count : Nat
deriving DecidableEq, Repr

/-- The in-memory `networks` dictionary. -/
abbrev Registry := List (String × NetworkEntry)

/-- `ConfigManager.add_network` (config_manager.py lines 92-119): validate
the CIDR via `ipaddress.ip_network(cidr, strict=False)`; on `ValueError`
log and return `False` leaving the registry unchanged; otherwise store the
entry under the name (overwriting an existing one) with
`cidr = str(network)` and return `True`. -/
def add_network (reg : Registry) (name cidr description : String) :
    Registry × Bool :=
  match ip_network cidr with
  | none => (reg, false)
  | some np =>
    (dictInsert name
      { cidr := networkStr np, description := description, enabled := true,
        last_scan := none, scan_count := 0 } reg, true)

/-- `ConfigManager.get_network` (config_manager.py lines 141-143). -/
def get_network (reg : Registry) (name : String) : Option NetworkEntry :=
  dictGet name reg

/-! ## The full-run orchestrator (`AdvancedScanner.run_full_scan`) -/

/-- Environment of one run: the outcomes of the external collaborators as
the code observes them.  `validTarget` abstracts `validate_target()`
(registry lookup / CIDR syntax check), `lockAvailable` the non-blocking
`flock`, `phase1` the phase-1 executor invocation, `phase2exec` the
per-host phase-2 invocations, `saveOk` whether writing the results file
raises, `historyWriteOk` whether writing the history file raises,
`influxOk` whether the HTTP write succeeds. -/
structure Env where
  scan_id : String
  network_name : Option String
  network_cidr : String
  duration_repr : String
  measurement : String
  now_ns : Nat
  validTarget : Bool
  lockAvailable : Bool
  phase1 : ExecOutcome
  phase2exec : String → ExecOutcome
  saveOk : Bool
  historyWriteOk : Bool
  historyFile : HistFile
  maxHistory : Nat
  influxEnabled : Bool
  influxOk : Bool

/-- The errors `run_full_scan` can raise to its caller:
`ValueError` for an invalid target, `RuntimeError` for a held lock, the
re-raised phase-1 executor exception, and the re-raised `save_results`
exception. -/
inductive RunError where
  | targetInvalid
  | lockHeld
  | phase1Failed
  | persistFailed
deriving DecidableEq, Repr

/-- Observable outcome of `run_full_scan`: the returned summary or raised
error, whether the lock was acquired and released, and the side effects on
the results file, history file and metrics sink. -/
structure RunOutcome where
  result : Except RunError ScanSummary
  lockAcquired : Bool
  lockReleased : Bool
  resultsSaved : Bool
  historyAfter : HistFile
  pointsPushed : Bool

/-- `AdvancedScanner.send_to_influxdb` (advanced_scan.py lines 469-501)
reduced to whether a write reaches the sink: disabled config, an empty
point list, an encoder exception, or a failed POST (all caught and logged)
push nothing. -/
def send_to_influxdb_pushed (env : Env) (s : ScanSummary) : Bool :=
  if ¬ env.influxEnabled then false
  else
    match convert_to_influx_points env.measurement env.scan_id
        env.network_name env.network_cidr env.now_ns s with
    | none => false
    | some pts => if pts.isEmpty then false else env.influxOk

/-- `AdvancedScanner.run_full_scan` (advanced_scan.py lines 540-585):
validate the target (raises before the lock is taken), acquire the lock
(raises without acquisition when unavailable), then inside
`try ... finally: self.release_lock(lock_fd)` run phase 1 (whose
timeout/exit/other exceptions propagate), phase 2, build the summary, save
the results file (`save_results` re-raises on failure), append history
(failures swallowed inside `update_scan_history`), and push to InfluxDB
(failures swallowed inside `send_to_influxdb`).  Every branch after
acquisition releases the lock, mirroring the `finally`. -/
def run_full_scan (env : Env) : RunOutcome :=
  if ¬ env.validTarget then
    { result := .error .targetInvalid, lockAcquired := false,
      lockReleased := false, resultsSaved := false,
      historyAfter := env.historyFile, pointsPushed := false }
  else if ¬ env.lockAvailable then
    { result := .error .lockHeld, lockAcquired := false,
      lockReleased := false, resultsSaved := false,
      historyAfter := env.historyFile, pointsPushed := false }
  else
    match env.phase1 with
    | .ok doc =>
      let p1 := parse_phase1_xml doc
      let p2 := run_phase2 env.phase2exec p1
      let summary := generate_summary_report env.scan_id env.network_name
        env.network_cidr env.duration_repr p1 p2
      if ¬ env.saveOk then
        { result := .error .persistFailed, lockAcquired := true,
          lockReleased := true, resultsSaved := false,
          historyAfter := env.historyFile, pointsPushed := false }
      else
        { result := .ok summary, lockAcquired := true, lockReleased := true,
          resultsSaved := true,
          historyAfter := update_scan_history env.historyWriteOk
            env.maxHistory env.historyFile (mkHistoryEntry summary),
          pointsPushed := send_to_influxdb_pushed env summary }
    | _ =>
      { result := .error .phase1Failed, lockAcquired := true,
        lockReleased := true, resultsSaved := false,
        historyAfter := env.historyFile, pointsPushed := false }

/-- Whether an executor outcome is a failure (timeout, non-zero exit, or
any other exception). -/
def ExecOutcome.isFail : ExecOutcome → Bool
  | .ok _ => false
  | _ => true

/-! ## Association-list lemmas -/

theorem dictGet_dictInsert {α β : Type} [DecidableEq α] (k : α) (v : β) :
    ∀ l : List (α × β), dictGet k (dictInsert k v l) = some v
  | [] => by simp [dictInsert, dictGet]
  | (k', v') :: rest => by
    by_cases h : k' = k <;>
      simp [dictInsert, dictGet, h, dictGet_dictInsert k v rest]

theorem map_fst_dictInsert {α β : Type} [DecidableEq α] (k : α) (v : β) :
    ∀ l : List (α × β), (dictInsert k v l).map Prod.fst =
      if k ∈ l.map Prod.fst then l.map Prod.fst else l.map Prod.fst ++ [k]
  | [] => by simp [dictInsert]
  | (k', v') :: rest => by
    by_cases h : k' = k
    · subst h; simp [dictInsert]
    · by_cases hm : k ∈ rest.map Prod.fst <;>
        simp [dictInsert, h, map_fst_dictInsert k v rest, hm, Ne.symm h]

theorem mem_map_fst_dictInsert {α β : Type} [DecidableEq α] (k a : α) (v : β)
    (l : List (α × β)) :
    a ∈ (dictInsert k v l).map Prod.fst ↔ a = k ∨ a ∈ l.map Prod.fst := by
  rw [map_fst_dictInsert]
  split
  · rename_i hm
    constructor
    · exact .inr
    · rintro (rfl | h) <;> [exact hm; exact h]
  · simp [or_comm]

theorem mem_dictInsert {α β : Type} [DecidableEq α] (k : α) (v : β)
    (p : α × β) :
    ∀ l, p ∈ dictInsert k v l → p = (k, v) ∨ p ∈ l
  | [] => by simp [dictInsert]
  | (k', v') :: rest => by
    by_cases h : k' = k
    · subst h; simp [dictInsert]; tauto
    · simp only [dictInsert, if_neg h, List.mem_cons]
      rintro (rfl | hp)
      · exact .inr (.inl rfl)
      · rcases mem_dictInsert k v p rest hp with h1 | h2
        · exact .inl h1
        · exact .inr (.inr h2)

theorem nodup_map_fst_dictInsert {α β : Type} [DecidableEq α] (k : α) (v : β)
    (l : List (α × β)) (h : (l.map Prod.fst).Nodup) :
    ((dictInsert k v l).map Prod.fst).Nodup := by
  rw [map_fst_dictInsert]
  split
  · exact h
  · rename_i hm
    simpa [List.nodup_append, hm] using h

/-! ## Lemmas about the phase-1 parser -/

/-- A host qualifies for the phase-1 result: resolvable truthy address and
at least one open port. -/
def phase1Qualifies (h : XHost) (ip : String) : Prop :=
  findHostIp h = some ip ∧ ip ≠ "" ∧ hostOpenPorts h ≠ []

theorem mem_keys_phase1Step (acc : List (String × List Nat)) (h : XHost)
    (ip : String) :
    ip ∈ (phase1Step acc h).map Prod.fst ↔
      ip ∈ acc.map Prod.fst ∨ phase1Qualifies h ip := by
  unfold phase1Qualifies
  rcases hf : findHostIp h with _ | ip'
  · simp [phase1Step, hf]
  · by_cases he : ip' = ""
    · subst he
      simp only [phase1Step, hf, if_pos rfl]
      constructor
      · exact .inl
      · rintro (hm | ⟨hip, hne, -⟩)
        · exact hm
        · cases hip; exact absurd rfl hne
    · by_cases hop : (hostOpenPorts h).isEmpty
      · rw [List.isEmpty_iff] at hop
        simp only [phase1Step, hf, if_neg he, hop, List.isEmpty_nil, if_pos rfl]
        constructor
        · exact .inl
        · rintro (hm | ⟨-, -, hne⟩)
          · exact hm
          · exact absurd rfl hne
      · have hop' : hostOpenPorts h ≠ [] := by
          simpa [List.isEmpty_iff] using hop
        simp only [phase1Step, hf, if_neg he, if_neg hop,
          mem_map_fst_dictInsert]
        constructor
        · rintro (rfl | hm)
          · exact .inr ⟨rfl, he, hop'⟩
          · exact .inl hm
        · rintro (hm | ⟨hip, -, -⟩)
          · exact .inr hm
          · cases hip; exact .inl rfl

theorem mem_phase1_foldl (hosts : List XHost) :
    ∀ (acc : List (String × List Nat)) (ip : String),
      ip ∈ (hosts.foldl phase1Step acc).map Prod.fst ↔
        ip ∈ acc.map Prod.fst ∨ ∃ h ∈ hosts, phase1Qualifies h ip := by
  induction hosts with
  | nil => simp
  | cons h t ih =>
    intro acc ip
    rw [List.foldl_cons, ih, mem_keys_phase1Step]
    simp [or_assoc]

theorem entry_phase1Step (acc : List (String × List Nat)) (h : XHost)
    (pr : String × List Nat) (hpr : pr ∈ phase1Step acc h) :
    pr ∈ acc ∨ (findHostIp h = some pr.1 ∧ hostOpenPorts h ≠ [] ∧
      pr.2 = (hostOpenPorts h).insertionSort (· ≤ ·)) := by
  rcases hf : findHostIp h with _ | ip'
  · simp only [phase1Step, hf] at hpr; exact .inl hpr
  · by_cases he : ip' = ""
    · simp only [phase1Step, hf, if_pos he] at hpr; exact .inl hpr
    · by_cases hop : (hostOpenPorts h).isEmpty
      · simp only [phase1Step, hf, if_neg he, if_pos hop] at hpr
        exact .inl hpr
      · simp only [phase1Step, hf, if_neg he, if_neg hop] at hpr
        rcases mem_dictInsert _ _ _ _ hpr with rfl | hacc
        · exact .inr ⟨rfl, by simpa [List.isEmpty_iff] using hop, rfl⟩
        · exact .inl hacc

theorem entry_phase1_foldl (hosts : List XHost) :
    ∀ (acc : List (String × List Nat)) (pr : String × List Nat),
      pr ∈ hosts.foldl phase1Step acc →
        pr ∈ acc ∨ ∃ h ∈ hosts, findHostIp h = some pr.1 ∧
          hostOpenPorts h ≠ [] ∧
          pr.2 = (hostOpenPorts h).insertionSort (· ≤ ·) := by
  induction hosts with
  | nil => simp
  | cons h t ih =>
    intro acc pr hpr
    rw [List.foldl_cons] at hpr
    rcases ih (phase1Step acc h) pr hpr with hstep | ⟨h', hh', hq⟩
    · rcases entry_phase1Step acc h pr hstep with hacc | hq
      · exact .inl hacc
      · exact .inr ⟨h, by simp, hq⟩
    · exact .inr ⟨h', List.mem_cons_of_mem _ hh', hq⟩

theorem nodup_phase1_foldl (hosts : List XHost) :
    ∀ acc : List (String × List Nat), (acc.map Prod.fst).Nodup →
      ((hosts.foldl phase1Step acc).map Prod.fst).Nodup := by
  induction hosts with
  | nil => exact fun _ h => h
  | cons h t ih =>
    intro acc hacc
    rw [List.foldl_cons]
    refine ih _ ?_
    rcases hf : findHostIp h with _ | ip'
    · simpa only [phase1Step, hf] using hacc
    · by_cases he : ip' = ""
      · simpa only [phase1Step, hf, if_pos he] using hacc
      · by_cases hop : (hostOpenPorts h).isEmpty
        · simpa only [phase1Step, hf, if_neg he, if_pos hop] using hacc
        · simp only [phase1Step, hf, if_neg he, if_neg hop]
          exact nodup_map_fst_dictInsert _ _ _ hacc

/-- Keys of the phase-1 result are exactly the ips of qualifying hosts. -/
theorem mem_keys_parse_phase1_xml (doc : XDoc) (ip : String) :
    ip ∈ (parse_phase1_xml doc).map Prod.fst ↔
      ∃ h ∈ doc.hosts, phase1Qualifies h ip := by
  unfold parse_phase1_xml
  rw [mem_phase1_foldl]
  simp

/-- The phase-1 result has no duplicate ips. -/
theorem nodup_keys_parse_phase1_xml (doc : XDoc) :
    ((parse_phase1_xml doc).map Prod.fst).Nodup :=
  nodup_phase1_foldl doc.hosts [] (by simp)

/-! ## Lemmas about the phase-2 fan-out and detail parser -/

/-- The phase-2 pass of a host contributes to the aggregate iff its executor
invocation succeeds and its detail document parses to a non-empty
dictionary. -/
def phase2Succeeds (exec : String → ExecOutcome) (ip : String) : Bool :=
  match exec ip with
  | .ok d => (parse_phase2_xml d).isSome
  | _ => false

theorem run_phase2_foldl_keys (exec : String → ExecOutcome) :
    ∀ (p1 : List (String × List Nat)) (acc : List (String × HostDetail)),
      (∀ pr ∈ p1, pr.1 ∉ acc.map Prod.fst) → (p1.map Prod.fst).Nodup →
      (p1.foldl (phase2Step exec) acc).map Prod.fst =
        acc.map Prod.fst ++ (p1.map Prod.fst).filter (phase2Succeeds exec) := by
  intro p1
  induction p1 with
  | nil => simp
  | cons pr t ih =>
    intro acc hdisj hnd
    rw [List.foldl_cons, List.map_cons, List.filter_cons]
    rcases hex : exec pr.1 with d | _ | _ | _
    · rcases hpd : parse_phase2_xml d with _ | hd
      · have hstep : phase2Step exec acc pr = acc := by
          simp [phase2Step, hex, hpd]
        have hsucc : phase2Succeeds exec pr.1 = false := by
          simp [phase2Succeeds, hex, hpd]
        rw [hstep, hsucc]
        simp only [Bool.false_eq_true, if_false]
        exact ih acc (fun q hq => hdisj q (List.mem_cons_of_mem _ hq))
          (List.Nodup.of_cons hnd)
      · have hstep : phase2Step exec acc pr = dictInsert pr.1 hd acc := by
          simp [phase2Step, hex, hpd]
        have hsucc : phase2Succeeds exec pr.1 = true := by
          simp [phase2Succeeds, hex, hpd]
        rw [hstep, hsucc, if_pos rfl]
        have hout : pr.1 ∉ acc.map Prod.fst := hdisj pr (by simp)
        have hkeys : (dictInsert pr.1 hd acc).map Prod.fst =
            acc.map Prod.fst ++ [pr.1] := by
          rw [map_fst_dictInsert, if_neg hout]
        rw [ih (dictInsert pr.1 hd acc) ?_ (List.Nodup.of_cons hnd), hkeys]
        · simp
        · intro q hq
          rw [hkeys]
          simp only [List.mem_append, List.mem_singleton]
          rintro (hin | heq)
          · exact hdisj q (List.mem_cons_of_mem _ hq) hin
          · rcases List.nodup_cons.mp hnd with ⟨hni, -⟩
            exact hni (by rw [← heq]; exact List.mem_map_of_mem Prod.fst hq)
    all_goals
      have hstep : phase2Step exec acc pr = acc := by simp [phase2Step, hex]
      have hsucc : phase2Succeeds exec pr.1 = false := by
        simp [phase2Succeeds, hex]
      rw [hstep, hsucc]
      simp only [Bool.false_eq_true, if_false]
      exact ih acc (fun q hq => hdisj q (List.mem_cons_of_mem _ hq))
        (List.Nodup.of_cons hnd)

/-- Keys of the phase-2 aggregate: the discovery-order ips whose scan
succeeded and parsed. -/
theorem run_phase2_keys (exec : String → ExecOutcome)
    (p1 : List (String × List Nat)) (hnd : (p1.map Prod.fst).Nodup) :
    (run_phase2 exec p1).map Prod.fst =
      (p1.map Prod.fst).filter (phase2Succeeds exec) := by
  unfold run_phase2
  rw [run_phase2_foldl_keys exec p1 [] (by simp) hnd]
  simp

/-- Length of a filter removing one element of a duplicate-free list. -/
theorem length_filter_ne {α : Type} [DecidableEq α] (l : List α) (a : α)
    (hnd : l.Nodup) (hmem : a ∈ l) :
    (l.filter fun x => x ≠ a).length = l.length - 1 := by
  induction l with
  | nil => cases hmem
  | cons b t ih =>
    rcases List.nodup_cons.mp hnd with ⟨hbt, hndt⟩
    rcases List.mem_cons.mp hmem with rfl | hat
    · rw [List.filter_cons, if_neg (by simp)]
      have hrest : t.filter (fun x => x ≠ a) = t := by
        refine List.filter_eq_self.mpr fun x hx => ?_
        simp only [ne_eq, decide_eq_true_eq]
        rintro rfl
        exact hbt hx
      rw [hrest]
      simp
    · have hba : b ≠ a := fun h => hbt (h ▸ hat)
      have hpos : 1 ≤ t.length := List.length_pos.mpr (List.ne_nil_of_mem hat)
      rw [List.filter_cons, if_pos (by simp [hba])]
      rw [List.length_cons, List.length_cons, ih hndt hat]
      omega

/-! ## Lemmas about the History Ledger -/

theorem truncHist_eq_drop (maxH : Nat) (hm : 0 < maxH)
    (h : List HistoryEntry) :
    truncHist maxH h = h.drop (h.length - maxH) := by
  unfold truncHist pySliceLast
  split
  · rw [if_neg (Nat.pos_iff_ne_zero.mp hm)]
  · rename_i hle
    have h0 : h.length - maxH = 0 := by omega
    rw [h0, List.drop_zero]

theorem truncHist_length_le (maxH : Nat) (hm : 0 < maxH)
    (h : List HistoryEntry) :
    (truncHist maxH h).length ≤ maxH := by
  rw [truncHist_eq_drop maxH hm, List.length_drop]
  omega

theorem drop_sub_append {α : Type} (n : Nat) (xs ys : List α) :
    (xs.drop (xs.length - n) ++ ys).drop
        ((xs.drop (xs.length - n) ++ ys).length - n) =
      (xs ++ ys).drop ((xs ++ ys).length - n) := by
  by_cases hL : xs.length ≤ n
  · have h0 : xs.length - n = 0 := by omega
    rw [h0, List.drop_zero]
  · have ht : (xs.drop (xs.length - n)).length = n := by
      rw [List.length_drop]; omega
    rw [List.length_append, ht, List.length_append]
    have h1 : n + ys.length - n = ys.length := by omega
    have h2 : xs.length + ys.length - n = (xs.length - n) + ys.length := by
      omega
    have h4 : (xs ++ ys).drop (xs.length - n) =
        xs.drop (xs.length - n) ++ ys := by
      rw [List.drop_append_eq_append_drop]
      have h3 : xs.length - n - xs.length = 0 := by omega
      rw [h3, List.drop_zero]
    rw [h1, h2, ← List.drop_drop, h4]

theorem foldl_update_hist (maxH : Nat) (hm : 0 < maxH) :
    ∀ (l acc : List HistoryEntry), acc.length ≤ maxH →
      l.foldl (update_scan_history true maxH) (.valid acc) =
        .valid ((acc ++ l).drop ((acc ++ l).length - maxH)) := by
  intro l
  induction l with
  | nil =>
    intro acc hacc
    simp only [List.foldl_nil, List.append_nil]
    have h0 : acc.length - maxH = 0 := by omega
    rw [h0, List.drop_zero]
  | cons e t ih =>
    intro acc hacc
    rw [List.foldl_cons]
    have hstep : update_scan_history true maxH (.valid acc) e =
        .valid (truncHist maxH (acc ++ [e])) := by
      simp [update_scan_history]
    rw [hstep, ih _ (truncHist_length_le maxH hm _),
      truncHist_eq_drop maxH hm, drop_sub_append maxH (acc ++ [e]) t,
      List.append_assoc, List.singleton_append]

/-! ## Lemmas about the line-protocol tag escaping -/

theorem replaceChar_append (needle : Char) (repl : List Char) :
    ∀ a b : List Char, replaceChar needle repl (a ++ b) =
      replaceChar needle repl a ++ replaceChar needle repl b
  | [], _ => rfl
  | c :: cs, b => by
    simp [replaceChar, replaceChar_append needle repl cs b]

theorem esc_tag_cons (c : Char) (cs : List Char) :
    esc_tag (c :: cs) = escTagChar c ++ esc_tag cs := by
  have h1 : replaceChar '\x5c' ['\x5c', '\x5c'] (c :: cs) =
      (if c = '\x5c' then ['\x5c', '\x5c'] else [c]) ++
        replaceChar '\x5c' ['\x5c', '\x5c'] cs := rfl
  unfold esc_tag
  rw [h1, replaceChar_append, replaceChar_append, replaceChar_append]
  congr 1
  by_cases hb : c = '\x5c'
  · subst hb; rfl
  · by_cases hs : c = ' '
    · subst hs; rfl
    · by_cases hc : c = ','
      · subst hc; rfl
      · by_cases he : c = '='
        · subst he; rfl
        · simp [replaceChar, escTagChar, hb, hs, hc, he]

theorem esc_tag_eq_escTagChar :
    ∀ s : List Char, esc_tag s = s.flatMap escTagChar
  | [] => rfl
  | c :: cs => by
    rw [esc_tag_cons, List.flatMap_cons, esc_tag_eq_escTagChar cs]

/-! ## Concrete fixtures used by the counterexamples and witnesses -/

/-- An open `<port>` element with the given portid and protocol. -/
def fixOpenPort (n : Nat) (proto : String) : XPort :=
  { portid := n, protocol := some proto, state := some { state := "open" },
    service := none, scripts := [] }

/-- A `<host>` with one ipv4 address and the given ports. -/
def fixHost (ip : String) (ports : List XPort) : XHost :=
  { addresses := [{ addrtype := "ipv4", addr := ip }], hostnames := none,
    ports := some ports, os := none }

/-- A host whose port 53 is open for both tcp and udp. -/
def c4Host : XHost :=
  fixHost "10.0.0.1" [fixOpenPort 53 "tcp", fixOpenPort 53 "udp"]

/-- A host with an address, for the detail parser. -/
def c6HostA : XHost := fixHost "10.0.0.1" [fixOpenPort 22 "tcp"]

/-- A host element with no `<address>` children at all. -/
def c6HostB : XHost :=
  { addresses := [], hostnames := none, ports := some [fixOpenPort 80 "tcp"],
    os := none }

/-- A service whose name contains a space. -/
def c2Service : XService :=
  { name := some "http proxy", product := none, version := none,
    extrainfo := none, tunnel := none, method := none }

/-- An open port 80 carrying the space-named service. -/
def c2Port : XPort :=
  { portid := 80, protocol := some "tcp", state := some { state := "open" },
    service := some c2Service, scripts := [] }

/-- A host carrying the space-named service on an open port. -/
def c2Host : XHost :=
  { addresses := [{ addrtype := "ipv4", addr := "10.0.0.5" }],
    hostnames := none, ports := some [c2Port], os := none }

def c2Doc : XDoc := ⟨[c2Host]⟩

/-- The summary the orchestrator would aggregate for `c2Doc`. -/
def c2Summary : ScanSummary :=
  generate_summary_report "id" none "10.0.0.0/24" "1.5"
    (parse_phase1_xml c2Doc)
    (run_phase2 (fun _ => .ok c2Doc) (parse_phase1_xml c2Doc))

def c1HostA : XHost := fixHost "10.0.0.4" [fixOpenPort 22 "tcp"]

def c1HostB : XHost := fixHost "10.0.0.5" [fixOpenPort 80 "tcp"]

def c1Doc : XDoc := ⟨[c1HostA, c1HostB]⟩

/-- Detail document the phase-2 executor returns for `10.0.0.4`. -/
def c1DetailDocA : XDoc := ⟨[c1HostA]⟩

/-- Executor in which exactly the scan of `10.0.0.5` times out. -/
def c1Exec : String → ExecOutcome :=
  fun ip => if ip = "10.0.0.5" then .timeout else .ok c1DetailDocA

def c1Env : Env :=
  { scan_id := "id", network_name := none, network_cidr := "10.0.0.0/24",
    duration_repr := "1.0", measurement := "m", now_ns := 0,
    validTarget := true, lockAvailable := true, phase1 := .ok c1Doc,
    phase2exec := c1Exec, saveOk := true, historyWriteOk := true,
    historyFile := .missing, maxHistory := 50, influxEnabled := false,
    influxOk := true }

/-- A run in which the phase-1 invocation times out. -/
def c7Env : Env :=
  { scan_id := "id", network_name := none, network_cidr := "10.0.0.0/24",
    duration_repr := "1.0", measurement := "m", now_ns := 0,
    validTarget := true, lockAvailable := true, phase1 := .timeout,
    phase2exec := fun _ => .otherError, saveOk := true,
    historyWriteOk := true, historyFile := .valid [], maxHistory := 50,
    influxEnabled := true, influxOk := true }

/-- A run whose scan phases complete but whose results-file write fails. -/
def c8FailEnv : Env :=
  { scan_id := "id", network_name := none, network_cidr := "10.0.0.0/24",
    duration_repr := "1.0", measurement := "m", now_ns := 0,
    validTarget := true, lockAvailable := true, phase1 := .ok c1Doc,
    phase2exec := c1Exec, saveOk := false, historyWriteOk := true,
    historyFile := .valid [], maxHistory := 50, influxEnabled := true,
    influxOk := true }

/-- A run whose results file is written but whose history write and sink
push both fail (corrupt history file, failing POST). -/
def c8OkEnv : Env :=
  { scan_id := "id", network_name := none, network_cidr := "10.0.0.0/24",
    duration_repr := "1.0", measurement := "m", now_ns := 0,
    validTarget := true, lockAvailable := true, phase1 := .ok c1Doc,
    phase2exec := c1Exec, saveOk := true, historyWriteOk := false,
    historyFile := .corrupt, maxHistory := 50, influxEnabled := true,
    influxOk := false }

def c10Host : XHost := fixHost "10.0.0.9" [fixOpenPort 443 "tcp"]

def c10Doc : XDoc := ⟨[c10Host]⟩

/-- A detail document with no host elements: the executor succeeded but
parsing yields the empty dictionary. -/
def c10EmptyDoc : XDoc := ⟨[]⟩

def c10Exec : String → ExecOutcome := fun _ => .ok c10EmptyDoc

def c3Entry : HistoryEntry :=
  { scan_id := "a", network_name := none, network_cidr := "10.0.0.0/24",
    duration_repr := "1.0", hosts_discovered := 1, ports_found := 2,
    services_identified := 3 }

def c5Entry (i : Nat) : HistoryEntry :=
  { scan_id := toString i, network_name := none,
    network_cidr := "10.0.0.0/24", duration_repr := "1.0",
    hosts_discovered := i, ports_found := i, services_identified := i }

/-- Whether a run result is a returned summary rather than a raised
error. -/
def runOk : Except RunError ScanSummary → Bool
  | .ok _ => true
  | .error _ => false

/-! ## Claim theorems -/

/-- C4 counterexample: a discovery document in which port 53 of host
`10.0.0.1` is open for both tcp and udp parses to the port list `[53, 53]`
— sorted, but with a duplicate port number, refuting the claimed
deduplication. -/
theorem C4_discovery_duplicate_ports_counterexample :
    parse_phase1_xml ⟨[c4Host]⟩ = [("10.0.0.1", [53, 53])] ∧
    ¬ ([53, 53] : List Nat).Nodup := by
  constructor
  · decide
  · decide

/-- C4 (amended): the discovery parse maps exactly the hosts that have a
resolvable (truthy) ipv4/ipv6 address and at least one open port — hosts
with zero open ports or no address do not appear at all — and every mapped
port list is non-empty and sorted ascending.  (The lists are NOT
deduplicated: the same port number appears once per open `<port>` element
carrying it, e.g. once for tcp and once for udp.) -/
theorem C4_discovery_membership_sorted (doc : XDoc) :
    (∀ ip, ip ∈ (parse_phase1_xml doc).map Prod.fst ↔
      ∃ h ∈ doc.hosts, findHostIp h = some ip ∧ ip ≠ "" ∧
        hostOpenPorts h ≠ []) ∧
    ∀ pr ∈ parse_phase1_xml doc, pr.2 ≠ [] ∧ List.Sorted (· ≤ ·) pr.2 := by
  constructor
  · intro ip
    rw [mem_keys_parse_phase1_xml]
    unfold phase1Qualifies
    rfl
  · intro pr hpr
    rcases entry_phase1_foldl doc.hosts [] pr hpr with hnil | ⟨h, -, -, hop, hsort⟩
    · cases hnil
    · constructor
      · rw [hsort]
        intro hc
        have := (List.perm_insertionSort (· ≤ ·) (hostOpenPorts h)).length_eq
        rw [hc] at this
        exact hop (List.eq_nil_of_length_eq_zero this.symm)
      · rw [hsort]
        exact List.sorted_insertionSort _ _

/-- C6 counterexample: in a detail document whose second and last host
element has no address, the parser returns the detail of the FIRST host,
not a value built from the last host element — refuting the claim for
documents whose last host lacks a resolvable address. -/
theorem C6_parse_detail_last_host_counterexample :
    parse_phase2_xml ⟨[c6HostA, c6HostB]⟩ =
      some { ip := "10.0.0.1", hostname := "",
             ports := [("22/tcp",
               { state := "open", service := none, scripts := [] })],
             os := [] } ∧
    (⟨[c6HostA, c6HostB]⟩ : XDoc).hosts.getLast? = some c6HostB ∧
    hostDetailOf c6HostB = none := by
  refine ⟨by decide, by decide, by decide⟩

/-- C6 (amended): the detail parser returns the `HostDetail` built from the
last host element that has a resolvable (truthy) address, discarding all
earlier such hosts; host elements without a resolvable address are skipped,
and if no host has one the parse is empty. -/
theorem C6_parse_detail_last_resolvable (doc : XDoc) :
    parse_phase2_xml doc = (doc.hosts.filterMap hostDetailOf).getLast? := by
  unfold parse_phase2_xml
  induction doc.hosts using List.reverseRecOn with
  | nil => simp
  | append_singleton hs h ih =>
    rw [List.foldl_append, List.foldl_cons, List.foldl_nil,
      List.filterMap_append]
    rcases hd : hostDetailOf h with _ | d
    · simpa [hd] using ih
    · simp [hd]

/-- C3 counterexample: appending to a history file holding unparseable
content leaves the file unchanged and appends nothing — the new entry is
NOT in the history afterwards, refuting the claimed
treat-as-empty-and-append behaviour for corrupt files. -/
theorem C3_history_corrupt_counterexample :
    update_scan_history true 50 .corrupt c3Entry = .corrupt ∧
    c3Entry ∉ histEntries (update_scan_history true 50 .corrupt c3Entry) := by
  refine ⟨rfl, by decide⟩

/-- C3 (amended): when the history file is absent the ledger treats the
ring as empty and the append succeeds, so the history afterwards is exactly
the new entry; when the file holds unparseable content the error is caught
and logged (not fatal to the run) but the entire append is skipped: the
file is left unchanged and no entry is added. -/
theorem C3_history_absent_appends_corrupt_skips (maxH : Nat)
    (e : HistoryEntry) (hm : 0 < maxH) :
    update_scan_history true maxH .missing e = .valid [e] ∧
    e ∈ histEntries (update_scan_history true maxH .missing e) ∧
    ∀ (w : Bool) (m : Nat), update_scan_history w m .corrupt e = .corrupt := by
  have htr : truncHist maxH [e] = [e] := by
    unfold truncHist
    rw [if_neg (by simp; omega)]
  refine ⟨?_, ?_, ?_⟩
  · simp [update_scan_history, htr]
  · simp [update_scan_history, htr, histEntries]
  · intro w m
    rfl

/-- C3 witness at `maxH = 50`. -/
theorem C3_witness :
    0 < 50 ∧
    update_scan_history true 50 .missing c3Entry = .valid [c3Entry] ∧
    c3Entry ∈ histEntries (update_scan_history true 50 .missing c3Entry) :=
  ⟨by decide,
    (C3_history_absent_appends_corrupt_skips 50 c3Entry (by decide)).1,
    (C3_history_absent_appends_corrupt_skips 50 c3Entry (by decide)).2.1⟩

/-- C5: after `N > max_history` appends starting from an empty ring the
history is exactly the most recent `max_history` entries in append order
(the oldest dropped from the front), and its length is exactly
`max_history`. -/
theorem C5_history_ring_retention (entries : List HistoryEntry)
    (maxH : Nat) (hm : 0 < maxH) (hlen : entries.length > maxH) :
    entries.foldl (update_scan_history true maxH) (.valid []) =
      .valid (entries.drop (entries.length - maxH)) ∧
    (entries.drop (entries.length - maxH)).length = maxH := by
  constructor
  · simpa using foldl_update_hist maxH hm entries [] (by simp)
  · rw [List.length_drop]
    omega

/-- C5 witness: three appends with `max_history = 2` retain the last two
entries. -/
theorem C5_witness :
    (0 < 2 ∧ [c5Entry 1, c5Entry 2, c5Entry 3].length > 2) ∧
    [c5Entry 1, c5Entry 2, c5Entry 3].foldl (update_scan_history true 2)
        (.valid []) =
      .valid [c5Entry 2, c5Entry 3] :=
  ⟨⟨by decide, by decide⟩,
    (C5_history_ring_retention [c5Entry 1, c5Entry 2, c5Entry 3] 2
      (by decide) (by decide)).1⟩

/-- C9: for every CIDR string the `ipaddress` model accepts, `add_network`
followed by `get_network` returns an entry whose `cidr` field is the
canonical normalized network string (host bits cleared), not the raw
input. -/
theorem C9_add_get_canonical_cidr (reg : Registry)
    (name cidr description : String) (np : Nat × Nat)
    (hv : ip_network cidr = some np) :
    get_network (add_network reg name cidr description).1 name =
      some { cidr := networkStr np, description := description,
             enabled := true, last_scan := none, scan_count := 0 } := by
  unfold add_network get_network
  rw [hv]
  exact dictGet_dictInsert _ _ _

/-- C9 witness: adding `192.168.1.77/24` stores the normalized
`192.168.1.0/24`, which differs from the raw input. -/
theorem C9_witness :
    ip_network "192.168.1.77/24" = some (3232235776, 24) ∧
    get_network (add_network [] "lan" "192.168.1.77/24" "home").1 "lan" =
      some { cidr := "192.168.1.0/24", description := "home",
             enabled := true, last_scan := none, scan_count := 0 } ∧
    ("192.168.1.0/24" : String) ≠ "192.168.1.77/24" := by
  refine ⟨by decide, ?_, by decide⟩
  have h := C9_add_get_canonical_cidr [] "lan" "192.168.1.77/24" "home"
    (3232235776, 24) (by decide)
  rw [h]
  decide

/-- C2 counterexample: the advanced-scanner encoder
(`_convert_to_influx_points`) emits tag values verbatim — for a summary
whose service name is `http proxy` the ports point carries
`service=http proxy` with the space NOT backslash-escaped (escaping the
value would change it), refuting the claim for the points this encoder
produces. -/
theorem C2_tag_escaping_counterexample :
    convert_to_influx_points "m" "id" none "10.0.0.0/24" 0 c2Summary =
      some ["m_summary,scan_id=id,network_name=manual,network_cidr=10.0.0.0/24 hosts_discovered=1i,ports_found=1i,services_identified=1i,duration_seconds=1.5 0",
        "m_ports,scan_id=id,ip=10.0.0.5,port=80,protocol=tcp,service=http proxy state=\x22open\x22 0"] ∧
    esc_tag "http proxy".data ≠ "http proxy".data := by
  refine ⟨by decide, by decide⟩

/-- C2 (amended): in the simple pipeline (`scan.py`), every tag value of
every point is passed through `esc_tag`, which escapes each backslash,
space, comma and equals sign with a preceding backslash, backslash first so
no inserted escape is re-escaped: the four chained `replace` calls equal a
single character-wise escaping pass.  (The advanced-scanner encoder
`_convert_to_influx_points` applies no tag escaping at all — see the
counterexample.) -/
theorem C2_tag_escaping (ip portid protocol service : List Char) :
    scanPointTags ip portid protocol service =
      "ip=".data ++ ip.flatMap escTagChar ++ ",port=".data ++
      portid.flatMap escTagChar ++ ",protocol=".data ++
      protocol.flatMap escTagChar ++ ",service=".data ++
      service.flatMap escTagChar := by
  unfold scanPointTags
  rw [esc_tag_eq_escTagChar, esc_tag_eq_escTagChar, esc_tag_eq_escTagChar,
    esc_tag_eq_escTagChar]

/-- C4 witness: the theorem applied to the duplicate-port document. -/
theorem C4_witness :
    ("10.0.0.1", [53, 53]) ∈ parse_phase1_xml ⟨[c4Host]⟩ ∧
    ([53, 53] : List Nat) ≠ [] ∧ List.Sorted (· ≤ ·) [53, 53] :=
  ⟨by decide, (C4_discovery_membership_sorted ⟨[c4Host]⟩).2
    ("10.0.0.1", [53, 53]) (by decide)⟩

/-- C7: whenever the run acquires the lock it also releases it (every exit
path of `run_full_scan` after acquisition goes through the `finally`); in
particular a phase-1 failure (timeout, non-zero exit or other executor
error) raises `Phase1Failed` with the lock released and with no results
file written, no history change, and no points pushed. -/
theorem C7_lock_release_discipline (env : Env) :
    ((run_full_scan env).lockAcquired = true →
      (run_full_scan env).lockReleased = true) ∧
    (env.validTarget = true → env.lockAvailable = true →
      env.phase1.isFail = true →
      (run_full_scan env).result = .error .phase1Failed ∧
      (run_full_scan env).lockReleased = true ∧
      (run_full_scan env).resultsSaved = false ∧
      (run_full_scan env).historyAfter = env.historyFile ∧
      (run_full_scan env).pointsPushed = false) := by
  constructor
  · intro hacq
    by_cases hv : env.validTarget = true
    · by_cases hl : env.lockAvailable = true
      · rcases hp : env.phase1 with d | _ | _ | _
        · by_cases hs : env.saveOk = true <;>
            simp [run_full_scan, hv, hl, hp, hs]
        all_goals simp [run_full_scan, hv, hl, hp]
      · simp [run_full_scan, hv, hl] at hacq
    · simp [run_full_scan, hv] at hacq
  · intro hv hl hfail
    rcases hp : env.phase1 with d | _ | _ | _
    · rw [hp] at hfail
      exact absurd hfail (by simp [ExecOutcome.isFail])
    all_goals
      refine ⟨?_, ?_, ?_, ?_, ?_⟩ <;> simp [run_full_scan, hv, hl, hp]

/-- C7 witness: a run whose phase 1 times out, applied to the theorem. -/
theorem C7_witness :
    (run_full_scan c7Env).result = .error .phase1Failed ∧
    (run_full_scan c7Env).lockReleased = true ∧
    (run_full_scan c7Env).resultsSaved = false ∧
    (run_full_scan c7Env).historyAfter = c7Env.historyFile ∧
    (run_full_scan c7Env).pointsPushed = false :=
  (C7_lock_release_discipline c7Env).2 rfl rfl rfl

/-- C8 counterexample: a run whose scan phases complete but whose
results-file write fails does NOT return the summary — `save_results`
re-raises, the run ends in `PersistFailed` (the lock is still released),
refuting the claim that a results-file persist failure leaves the reported
outcome a success. -/
theorem C8_results_persist_counterexample :
    (run_full_scan c8FailEnv).result = .error .persistFailed ∧
    (run_full_scan c8FailEnv).lockReleased = true ∧
    (run_full_scan c8FailEnv).resultsSaved = false :=
  ⟨rfl, rfl, rfl⟩

/-- C8 (amended): once the scan phases complete and the results file is
written, failures while appending history or pushing points to the metrics
sink are caught and logged and do not change the reported outcome — the
run still returns the `ScanSummary` (the environment quantifies freely
over the history-file state, the history-write outcome and the sink
outcome); a failure writing the results file itself, however, propagates
and the run fails with `PersistFailed` (lock released). -/
theorem C8_best_effort_publish (env : Env) (doc : XDoc)
    (hv : env.validTarget = true) (hl : env.lockAvailable = true)
    (hp : env.phase1 = .ok doc) :
    (env.saveOk = true →
      (run_full_scan env).result = .ok (generate_summary_report env.scan_id
        env.network_name env.network_cidr env.duration_repr
        (parse_phase1_xml doc)
        (run_phase2 env.phase2exec (parse_phase1_xml doc)))) ∧
    (env.saveOk = false →
      (run_full_scan env).result = .error .persistFailed ∧
      (run_full_scan env).lockReleased = true) := by
  constructor
  · intro hs
    simp [run_full_scan, hv, hl, hp, hs]
  · intro hs
    constructor <;> simp [run_full_scan, hv, hl, hp, hs]

/-- C8 witness: a run with a corrupt history file, a failing history write
and a failing sink push still reports success. -/
theorem C8_witness : runOk (run_full_scan c8OkEnv).result = true := by
  have h := (C8_best_effort_publish c8OkEnv c1Doc rfl rfl rfl).1 rfl
  rw [h]
  rfl

/-- C1: when phase 1 succeeds and, of the discovered hosts, exactly one
fails its phase-2 scan (timeout or non-zero exit or other executor error)
while every other host succeeds and parses, `run_full_scan` still returns
the `ScanSummary` (no error to the caller) and `phase2_detailed` holds
exactly the `N-1` surviving hosts in discovery order, the failed host being
dropped. -/
theorem C1_partial_failure_tolerance (env : Env) (doc : XDoc)
    (failed : String)
    (hv : env.validTarget = true) (hl : env.lockAvailable = true)
    (hp : env.phase1 = .ok doc) (hs : env.saveOk = true)
    (hmem : failed ∈ (parse_phase1_xml doc).map Prod.fst)
    (hfail : (env.phase2exec failed).isFail = true)
    (hok : ∀ ip ∈ (parse_phase1_xml doc).map Prod.fst, ip ≠ failed →
      phase2Succeeds env.phase2exec ip = true) :
    (run_full_scan env).result = .ok (generate_summary_report env.scan_id
      env.network_name env.network_cidr env.duration_repr
      (parse_phase1_xml doc)
      (run_phase2 env.phase2exec (parse_phase1_xml doc))) ∧
    (run_phase2 env.phase2exec (parse_phase1_xml doc)).map Prod.fst =
      ((parse_phase1_xml doc).map Prod.fst).filter (fun ip => ip ≠ failed) ∧
    (run_phase2 env.phase2exec (parse_phase1_xml doc)).length =
      (parse_phase1_xml doc).length - 1 := by
  have hnd := nodup_keys_parse_phase1_xml doc
  have hsuccfail : phase2Succeeds env.phase2exec failed = false := by
    unfold phase2Succeeds
    rcases hex : env.phase2exec failed with d | _ | _ | _
    · rw [hex] at hfail
      exact absurd hfail (by simp [ExecOutcome.isFail])
    all_goals rfl
  have hfiltereq :
      ((parse_phase1_xml doc).map Prod.fst).filter
          (phase2Succeeds env.phase2exec) =
        ((parse_phase1_xml doc).map Prod.fst).filter
          (fun ip => ip ≠ failed) := by
    apply List.filter_congr
    intro ip hip
    by_cases hipf : ip = failed
    · subst hipf
      simp [hsuccfail]
    · simp [hok ip hip hipf, hipf]
  have hkeys := run_phase2_keys env.phase2exec (parse_phase1_xml doc) hnd
  refine ⟨?_, ?_, ?_⟩
  · simp [run_full_scan, hv, hl, hp, hs]
  · rw [hkeys, hfiltereq]
  · have hlen : (run_phase2 env.phase2exec (parse_phase1_xml doc)).length =
        ((run_phase2 env.phase2exec (parse_phase1_xml doc)).map
          Prod.fst).length := (List.length_map _ _).symm
    rw [hlen, hkeys, hfiltereq, length_filter_ne _ _ hnd hmem,
      List.length_map]

/-- C1 witness: two discovered hosts, the scan of `10.0.0.5` times out; the
run succeeds with exactly `10.0.0.4` in the aggregate. -/
theorem C1_witness :
    (parse_phase1_xml c1Doc).map Prod.fst = ["10.0.0.4", "10.0.0.5"] ∧
    (run_full_scan c1Env).result = .ok (generate_summary_report
      c1Env.scan_id c1Env.network_name c1Env.network_cidr
      c1Env.duration_repr (parse_phase1_xml c1Doc)
      (run_phase2 c1Env.phase2exec (parse_phase1_xml c1Doc))) ∧
    (run_phase2 c1Env.phase2exec (parse_phase1_xml c1Doc)).map Prod.fst =
      ["10.0.0.4"] ∧
    (run_phase2 c1Env.phase2exec (parse_phase1_xml c1Doc)).length = 1 := by
  have h := C1_partial_failure_tolerance c1Env c1Doc "10.0.0.5" rfl rfl rfl
    rfl (by decide) (by decide) (by decide)
  refine ⟨by decide, h.1, ?_, ?_⟩
  · rw [h.2.1]
    decide
  · rw [h.2.2]
    decide

/-- C10: a host whose phase-2 invocation succeeds but whose detail document
has no host element with a resolvable address (so parsing is empty) is
silently omitted from `phase2_detailed`, making `hosts_analyzed` strictly
smaller than the number of discovered hosts even though no executor
invocation failed. -/
theorem C10_empty_parse_host_omitted (exec : String → ExecOutcome)
    (doc : XDoc) (sid : String) (nm : Option String) (cidr dur : String)
    (ip0 : String) (d0 : XDoc)
    (hmem : ip0 ∈ (parse_phase1_xml doc).map Prod.fst)
    (hok : exec ip0 = .ok d0) (hparse : parse_phase2_xml d0 = none)
    (hnofail : ∀ ip ∈ (parse_phase1_xml doc).map Prod.fst,
      (exec ip).isFail = false) :
    ip0 ∉ (run_phase2 exec (parse_phase1_xml doc)).map Prod.fst ∧
    (generate_summary_report sid nm cidr dur (parse_phase1_xml doc)
        (run_phase2 exec (parse_phase1_xml doc))).hosts_analyzed <
      (parse_phase1_xml doc).length := by
  have hnd := nodup_keys_parse_phase1_xml doc
  have hkeys := run_phase2_keys exec (parse_phase1_xml doc) hnd
  have hsucc0 : phase2Succeeds exec ip0 = false := by
    simp [phase2Succeeds, hok, hparse]
  have hnotin : ip0 ∉
      ((parse_phase1_xml doc).map Prod.fst).filter (phase2Succeeds exec) := by
    intro hin
    rcases List.mem_filter.mp hin with ⟨-, htrue⟩
    rw [hsucc0] at htrue
    cases htrue
  constructor
  · rw [hkeys]
    exact hnotin
  · have h1 : (generate_summary_report sid nm cidr dur (parse_phase1_xml doc)
        (run_phase2 exec (parse_phase1_xml doc))).hosts_analyzed =
        (run_phase2 exec (parse_phase1_xml doc)).length := rfl
    have h2 : (run_phase2 exec (parse_phase1_xml doc)).length =
        (((parse_phase1_xml doc).map Prod.fst).filter
          (phase2Succeeds exec)).length := by
      rw [← hkeys, List.length_map]
    rw [h1, h2]
    have hsub : List.Sublist (((parse_phase1_xml doc).map Prod.fst).filter
        (phase2Succeeds exec)) ((parse_phase1_xml doc).map Prod.fst) :=
      List.filter_sublist _
    have hne : (((parse_phase1_xml doc).map Prod.fst).filter
        (phase2Succeeds exec)).length ≠
        ((parse_phase1_xml doc).map Prod.fst).length := by
      intro heq
      rw [hsub.eq_of_length heq] at hnotin
      exact hnotin hmem
    have hlt := lt_of_le_of_ne hsub.length_le hne
    rwa [List.length_map] at hlt

/-- C10 witness: host `10.0.0.9` scans successfully but its detail document
is empty; it is dropped and `hosts_analyzed` is `0 < 1`. -/
theorem C10_witness :
    "10.0.0.9" ∉ (run_phase2 c10Exec (parse_phase1_xml c10Doc)).map
      Prod.fst ∧
    (generate_summary_report "id" none "10.0.0.0/24" "1.0"
        (parse_phase1_xml c10Doc)
        (run_phase2 c10Exec (parse_phase1_xml c10Doc))).hosts_analyzed <
      (parse_phase1_xml c10Doc).length :=
  C10_empty_parse_host_omitted c10Exec c10Doc "id" none "10.0.0.0/24" "1.0"
    "10.0.0.9" c10EmptyDoc (by decide) rfl rfl (by decide)

end MonitoringStack
